import Mathlib

/-!
# SiamAI `LogisticsCalculator` — verification of the pricing core

Shallow embedding, over `ℚ`, of the deterministic calculation core of
`src/components/LogisticsCalculator.tsx` (the multi-market component, the
second one in the file): the weight resolver, the standard- and bulk-channel
shipping cost calculator, the pricing engine, and the market comparator
(`calculate`, `calculateMarginAtPrice`, `marketStats`).

All numbers are modelled as exact rationals; JavaScript's `Math.ceil` is the
integer ceiling `⌈·⌉`.  The embedded values are the ones the source computes
before the presentation-layer display rounding (`toFixed`) in `setResults`.
-/

namespace SiamAI

/-- Target markets, from `types.ts` / the `RATES` table keys. -/
inductive TargetMarket
  | TH | PH | VN | MY | SG | ID
  deriving DecidableEq

/-- Delivery zones; the component state is typed `'A' | 'B' | 'C' | 'D'`. -/
inductive Zone
  | A | B | C | D
  deriving DecidableEq

/-- Logistics channels, from `LOGISTICS_OPTIONS` (`selectedLogisticId`). -/
inductive Channel
  | standard | land | air | sea
  deriving DecidableEq

/-- Exchange rates table `RATES` (local currency units per 1 CNY). -/
def RATES : TargetMarket → ℚ
  | .TH => 5.0
  | .PH => 8.0
  | .VN => 3500
  | .MY => 0.65
  | .SG => 0.19
  | .ID => 2200

/-- `const volWeight = (length * width * height) / 6000` (line 476). -/
def volWeight (length width height : ℚ) : ℚ :=
  length * width * height / 6000

/-- `const chargeWeightKg = Math.max(weightKg, volWeight)` (line 477). -/
def chargeWeightKg (weightKg length width height : ℚ) : ℚ :=
  max weightKg (volWeight length width height)

/-- `const chargeWeightG = Math.ceil(chargeWeightKg * 1000 / 10) * 10` (line 478):
the chargeable weight in grams, rounded up to a 10 g step. -/
def chargeWeightG (wKg : ℚ) : ℚ :=
  ⌈wKg * 1000 / 10⌉ * 10

/-- `const units = chargeWeightG / 10` (line 479): the 10 g billing unit count. -/
def unitsOf (wKg : ℚ) : ℚ :=
  chargeWeightG wKg / 10

/-- Standard-channel shipping in local currency (lines 484–520): per-market
banded formula in the billing unit count, with a per-zone base. -/
def standardShippingLocal (market : TargetMarket) (zone : Zone) (wKg : ℚ) : ℚ :=
  let units := unitsOf wKg
  match market with
  | .TH =>
      let buyerFee := if zone = Zone.A then 23 else if zone = Zone.B then 36 else 79
      buyerFee + units * 1
  | .PH =>
      let buyerFee := if zone = Zone.A then 40 else 60
      buyerFee + units * 4.5
  | .VN =>
      let addOn := (units - 1) * 900
      let base := if zone = Zone.D then 30900
        else if zone = Zone.B ∨ zone = Zone.C then 17900 else 15900
      base + (if addOn > 0 then addOn else 0)
  | .MY =>
      let addOn := (units - 1) * 0.15
      let base := if zone = Zone.B then 8.15 else 4.65
      base + (if addOn > 0 then addOn else 0)
  | .SG =>
      let addOn := (units - 1) * 0.15
      1.50 + (if addOn > 0 then addOn else 0)
  | .ID =>
      let addOn := (units - 1) * 1000
      let base := if zone = Zone.A then 10000 else 20000
      base + (if addOn > 0 then addOn else 0)

/-- Bulk per-kilogram rates in CNY, from the `rates` record (lines 525–538);
`standard` never reaches this table (`pricePerKg` is initialised to 0). -/
def pricePerKg (market : TargetMarket) (channel : Channel) : ℚ :=
  match market, channel with
  | .TH, .land => 6  | .TH, .air => 25 | .TH, .sea => 3
  | .PH, .land => 8  | .PH, .air => 35 | .PH, .sea => 5
  | .VN, .land => 4  | .VN, .air => 18 | .VN, .sea => 2
  | .MY, .land => 7  | .MY, .air => 28 | .MY, .sea => 4
  | .SG, .land => 8  | .SG, .air => 30 | .SG, .sea => 5
  | .ID, .land => 10 | .ID, .air => 40 | .ID, .sea => 6
  | _, .standard => 0

/-- `let minWeight = selectedLogisticId === 'sea' ? 10 : 0.1` (line 540). -/
def minWeight (channel : Channel) : ℚ :=
  if channel = Channel.sea then 10 else 0.1

/-- Pricing engine (lines 547–557): margin and fee percentages become
fractions, and the selling price is `totalCost / divisor` when
`divisor > 0.05`, else the `totalCost * 2` fallback. -/
def computeSellingPriceCNY (totalBaseCostCNY targetMargin platformFeePercent : ℚ) : ℚ :=
  let marginDecimal := targetMargin / 100
  let feeDecimal := platformFeePercent / 100
  let divisor := 1 - feeDecimal - marginDecimal
  if divisor > 0.05 then totalBaseCostCNY / divisor else totalBaseCostCNY * 2

/-- Inputs of `calculate`: the component state it reads. -/
structure CalcInputs where
  costCNY : ℚ
  weightKg : ℚ
  length : ℚ
  width : ℚ
  height : ℚ
  targetMargin : ℚ
  platformFeePercent : ℚ
  channel : Channel
  zone : Zone
  market : TargetMarket
  deriving DecidableEq

/-- Values `calculate` derives (lines 474–560), before display rounding. -/
structure CalcResults where
  volumetricWeight : ℚ
  chargeableWeight : ℚ
  shippingCostLocal : ℚ
  shippingCostCNY : ℚ
  totalCostCNY : ℚ
  sellingPriceCNY : ℚ
  sellingPriceLocal : ℚ
  netProfitCNY : ℚ
  deriving DecidableEq

/-- The `calculate` function (lines 474–560): weight resolution, channel
branch for shipping, total cost, pricing engine, net profit. -/
def calculate (i : CalcInputs) : CalcResults :=
  let exchangeRate := RATES i.market
  let volW := volWeight i.length i.width i.height
  let chargeKg := max i.weightKg volW
  let bulkFinalWeight := if chargeKg < minWeight i.channel then minWeight i.channel else chargeKg
  let shippingCNY :=
    if i.channel = Channel.standard then standardShippingLocal i.market i.zone chargeKg / exchangeRate
    else bulkFinalWeight * pricePerKg i.market i.channel
  let shippingLocal :=
    if i.channel = Channel.standard then standardShippingLocal i.market i.zone chargeKg
    else shippingCNY * exchangeRate
  let totalBaseCostCNY := i.costCNY + shippingCNY
  let sellingPriceCNY := computeSellingPriceCNY totalBaseCostCNY i.targetMargin i.platformFeePercent
  let sellingPriceLocal := sellingPriceCNY * exchangeRate
  let profitCNY := sellingPriceCNY * (i.targetMargin / 100)
  { volumetricWeight := volW
    chargeableWeight := chargeKg
    shippingCostLocal := shippingLocal
    shippingCostCNY := shippingCNY
    totalCostCNY := totalBaseCostCNY
    sellingPriceCNY := sellingPriceCNY
    sellingPriceLocal := sellingPriceLocal
    netProfitCNY := profitCNY }

/-- Market comparator `calculateMarginAtPrice` (lines 573–579); the component
reads `exchangeRate`, `platformFeePercent` and `results.totalCostCNY` from
state, here passed as arguments.  Returns `(profitCNY, marginPercent)`. -/
def calculateMarginAtPrice (exchangeRate platformFeePercent totalCostCNY targetPriceLocal : ℚ) :
    ℚ × ℚ :=
  let targetPriceCNY := targetPriceLocal / exchangeRate
  let feeCNY := targetPriceCNY * (platformFeePercent / 100)
  let profitCNY := targetPriceCNY - totalCostCNY - feeCNY
  let marginPercent := profitCNY / targetPriceCNY * 100
  (profitCNY, marginPercent)

/-- JavaScript division with an explicit marker for the non-finite result
(`NaN` or `±Infinity`) that `x / 0` produces: `none` stands for that
non-finite value, `some` for the exact finite quotient. -/
def jsDiv (a b : ℚ) : Option ℚ :=
  if b = 0 then none else some (a / b)

/-- `calculateMarginAtPrice` with division-by-zero tracked: identical formula
chain to the source (lines 573–579), but each division is `jsDiv`, so a
non-finite intermediate (as JavaScript would produce) surfaces as `none`. -/
def calculateMarginAtPriceJS (exchangeRate platformFeePercent totalCostCNY targetPriceLocal : ℚ) :
    Option ℚ × Option ℚ :=
  match jsDiv targetPriceLocal exchangeRate with
  | none => (none, none)
  | some targetPriceCNY =>
      let feeCNY := targetPriceCNY * (platformFeePercent / 100)
      let profitCNY := targetPriceCNY - totalCostCNY - feeCNY
      (some profitCNY, (jsDiv profitCNY targetPriceCNY).map (· * 100))

/-- `marketStats` (lines 463–468): `null` on an empty price list, else the
average `prices.reduce((a, b) => a + b, 0) / prices.length` of the raw
competitor local prices. -/
def marketStats (priceData : List ℚ) : Option ℚ :=
  if priceData.isEmpty then none
  else some ((priceData.foldl (fun a b => a + b) 0) / (priceData.length : ℚ))

/-! ## Helper lemmas -/

/-- The gram rounding, written with a single billing-unit ceiling. -/
lemma chargeWeightG_eq (w : ℚ) : chargeWeightG w = 10 * ⌈w * 100⌉ := by
  unfold chargeWeightG
  have h : w * 1000 / 10 = w * 100 := by ring
  rw [h, mul_comm]

/-- The billing unit count is the ceiling of the weight in 10 g units. -/
lemma unitsOf_eq (w : ℚ) : unitsOf w = ⌈w * 100⌉ := by
  unfold unitsOf
  rw [chargeWeightG_eq]
  ring

/-- The unit count is monotone in the chargeable weight. -/
lemma unitsOf_mono {w₁ w₂ : ℚ} (h : w₁ ≤ w₂) : unitsOf w₁ ≤ unitsOf w₂ := by
  rw [unitsOf_eq, unitsOf_eq]
  exact_mod_cast Int.ceil_le_ceil (by nlinarith)

/-- The positive-part guard `addOn > 0 ? addOn : 0` is monotone. -/
lemma posIf_mono {a b : ℚ} (h : a ≤ b) :
    (if a > 0 then a else 0) ≤ (if b > 0 then b else 0) := by
  split_ifs <;> linarith

/-- Every configured exchange rate is positive. -/
lemma RATES_pos (m : TargetMarket) : 0 < RATES m := by
  cases m <;> norm_num [RATES]

/-- Normal branch of the pricing engine. -/
lemma computeSellingPriceCNY_of_pos {t m f : ℚ} (h : 1 - f / 100 - m / 100 > 0.05) :
    computeSellingPriceCNY t m f = t / (1 - f / 100 - m / 100) := by
  simp only [computeSellingPriceCNY]
  exact if_pos h

/-- Fallback branch of the pricing engine. -/
lemma computeSellingPriceCNY_of_neg {t m f : ℚ} (h : ¬ (1 - f / 100 - m / 100 > 0.05)) :
    computeSellingPriceCNY t m f = t * 2 := by
  simp only [computeSellingPriceCNY]
  exact if_neg h

/-- The bulk minimum-weight guard is a maximum. -/
lemma ite_lt_eq_max (a m : ℚ) : (if a < m then m else a) = max a m := by
  split_ifs with h
  · exact (max_eq_right h.le).symm
  · exact (max_eq_left (not_lt.1 h)).symm

/-- The source's `reduce((a, b) => a + b, 0)` is the list sum. -/
lemma foldl_add_eq (l : List ℚ) : ∀ a : ℚ, l.foldl (fun x y => x + y) a = a + l.sum := by
  induction l with
  | nil => intro a; simp
  | cons x xs ih =>
      intro a
      simp only [List.foldl_cons, List.sum_cons, ih]
      ring

/-! ## Claims -/

/-- C1 (counterexample): at goods cost 1, shipping reference 0, margin 65 %,
fee 30 %, the fee and margin fractions sum to exactly 0.95, so the claim's
first part demands `sellingPrice * (1 - 0.30 - 0.65) = totalCost`; the code
takes the ×2 fallback (its guard is `divisor > 0.05`, strict), and the
equation fails: `2 * 0.05 = 0.1 ≠ 1`. -/
theorem C1_price_equation_counterexample :
    ¬ ((30 / 100 + 65 / 100 ≤ (0.95 : ℚ) →
          computeSellingPriceCNY (1 + 0) 65 30 * (1 - 30 / 100 - 65 / 100) = 1 + 0) ∧
       ((0.95 : ℚ) < 30 / 100 + 65 / 100 →
          computeSellingPriceCNY (1 + 0) 65 30 = 2 * (1 + 0))) := by
  intro hclaim
  have h := hclaim.1 (by norm_num)
  rw [computeSellingPriceCNY_of_neg (by norm_num)] at h
  norm_num at h

/-- C1 (amended): with the boundary moved to the code's strict guard — for
every goods cost and shipping reference, when `feeFraction + marginFraction
< 0.95` the recommended selling price satisfies
`sellingPrice * (1 - feeFraction - marginFraction) = totalCost`, and when
`feeFraction + marginFraction ≥ 0.95` it equals `2 * totalCost`. -/
theorem C1_price_equation (g s m f : ℚ) :
    (f / 100 + m / 100 < 0.95 →
        computeSellingPriceCNY (g + s) m f * (1 - f / 100 - m / 100) = g + s) ∧
    (0.95 ≤ f / 100 + m / 100 →
        computeSellingPriceCNY (g + s) m f = 2 * (g + s)) := by
  constructor
  · intro h
    have hd : 1 - f / 100 - m / 100 > 0.05 := by linarith
    rw [computeSellingPriceCNY_of_pos hd]
    exact div_mul_cancel₀ _ (by linarith)
  · intro h
    rw [computeSellingPriceCNY_of_neg (by simp only [not_lt]; linarith)]
    ring

/-- C1 witness: both branches at concrete inputs. -/
theorem C1_price_equation_witness :
    computeSellingPriceCNY (20 + 6.6) 30 8 * (1 - 8 / 100 - 30 / 100) = 20 + 6.6 ∧
    computeSellingPriceCNY (1 + 0) 70 30 = 2 * (1 + 0) :=
  ⟨(C1_price_equation 20 6.6 30 8).1 (by norm_num),
   (C1_price_equation 1 0 70 30).2 (by norm_num)⟩

/-- C2: for every input — any actual weight, any dimensions, any market,
channel and zone — the calculator's volumetric weight is
`length * width * height / 6000` (fixed divisor 6000), the chargeable weight
is `max(actualKg, volumetricKg)`, and when the volumetric weight is
non-positive and the actual weight non-negative the chargeable weight equals
the actual weight. -/
theorem C2_weight_resolver (i : CalcInputs) :
    (calculate i).volumetricWeight = i.length * i.width * i.height / 6000 ∧
    (calculate i).chargeableWeight = max i.weightKg ((calculate i).volumetricWeight) ∧
    ((calculate i).volumetricWeight ≤ 0 → 0 ≤ i.weightKg →
        (calculate i).chargeableWeight = i.weightKg) := by
  refine ⟨rfl, rfl, fun hv hw => ?_⟩
  show max i.weightKg (volWeight i.length i.width i.height) = i.weightKg
  exact max_eq_left ((hv : volWeight i.length i.width i.height ≤ 0).trans hw)

/-- C2 witness: zero-length package, positive actual weight. -/
theorem C2_weight_resolver_witness :
    (calculate ⟨20, 0.1, 0, 10, 5, 30, 8, Channel.standard, Zone.A, TargetMarket.TH⟩).volumetricWeight ≤ 0 ∧
    (0 : ℚ) ≤ 0.1 ∧
    (calculate ⟨20, 0.1, 0, 10, 5, 30, 8, Channel.standard, Zone.A, TargetMarket.TH⟩).chargeableWeight = 0.1 := by
  have hv : (calculate ⟨20, 0.1, 0, 10, 5, 30, 8, Channel.standard, Zone.A, TargetMarket.TH⟩).volumetricWeight ≤ 0 := by
    show volWeight 0 10 5 ≤ 0
    norm_num [volWeight]
  exact ⟨hv, by norm_num,
    (C2_weight_resolver ⟨20, 0.1, 0, 10, 5, 30, 8, Channel.standard, Zone.A, TargetMarket.TH⟩).2.2 hv (by norm_num)⟩

/-- C5: the net profit equals `sellingPriceCNY * marginFraction`, in the
normal branch (`divisor > 0.05`, where the selling price is
`totalCost / divisor`) and in the degenerate `×2` fallback branch alike. -/
theorem C5_net_profit (i : CalcInputs) :
    (calculate i).netProfitCNY = (calculate i).sellingPriceCNY * (i.targetMargin / 100) ∧
    (1 - i.platformFeePercent / 100 - i.targetMargin / 100 > 0.05 →
        (calculate i).netProfitCNY =
          (calculate i).totalCostCNY / (1 - i.platformFeePercent / 100 - i.targetMargin / 100) *
            (i.targetMargin / 100)) ∧
    (¬ (1 - i.platformFeePercent / 100 - i.targetMargin / 100 > 0.05) →
        (calculate i).netProfitCNY = (calculate i).totalCostCNY * 2 * (i.targetMargin / 100)) := by
  refine ⟨rfl, fun h => ?_, fun h => ?_⟩
  · show computeSellingPriceCNY ((calculate i).totalCostCNY) i.targetMargin i.platformFeePercent *
        (i.targetMargin / 100) = _
    rw [computeSellingPriceCNY_of_pos h]
  · show computeSellingPriceCNY ((calculate i).totalCostCNY) i.targetMargin i.platformFeePercent *
        (i.targetMargin / 100) = _
    rw [computeSellingPriceCNY_of_neg h]

/-- C5 witness: both branches at concrete inputs. -/
theorem C5_net_profit_witness :
    (calculate ⟨20, 0.1, 10, 10, 5, 30, 8, Channel.standard, Zone.A, TargetMarket.TH⟩).netProfitCNY =
      (calculate ⟨20, 0.1, 10, 10, 5, 30, 8, Channel.standard, Zone.A, TargetMarket.TH⟩).totalCostCNY /
        (1 - 8 / 100 - 30 / 100) * (30 / 100) ∧
    (calculate ⟨20, 0.1, 10, 10, 5, 70, 30, Channel.standard, Zone.A, TargetMarket.TH⟩).netProfitCNY =
      (calculate ⟨20, 0.1, 10, 10, 5, 70, 30, Channel.standard, Zone.A, TargetMarket.TH⟩).totalCostCNY * 2 *
        (70 / 100) :=
  ⟨(C5_net_profit ⟨20, 0.1, 10, 10, 5, 30, 8, Channel.standard, Zone.A, TargetMarket.TH⟩).2.1 (by norm_num),
   (C5_net_profit ⟨20, 0.1, 10, 10, 5, 70, 30, Channel.standard, Zone.A, TargetMarket.TH⟩).2.2 (by norm_num)⟩

/-- C3: for every bulk channel (land, air, sea), every market and every
input: the shipping reference (CNY) amount is
`max(chargeableKg, minimumWeight) * perKgRate`, the local amount is the
reference amount times the market exchange rate, any chargeable weight below
the minimum is billed exactly as the minimum (flooring), and the whole
result record is independent of the selected zone. -/
theorem C3_bulk_channel (i : CalcInputs) (h : i.channel ≠ Channel.standard) :
    (calculate i).shippingCostCNY =
      max ((calculate i).chargeableWeight) (minWeight i.channel) *
        pricePerKg i.market i.channel ∧
    (calculate i).shippingCostLocal = (calculate i).shippingCostCNY * RATES i.market ∧
    ((calculate i).chargeableWeight < minWeight i.channel →
        (calculate i).shippingCostCNY = minWeight i.channel * pricePerKg i.market i.channel) ∧
    (∀ z : Zone, calculate { i with zone := z } = calculate i) := by
  refine ⟨?_, ?_, fun hlt => ?_, fun z => ?_⟩
  · show (if i.channel = Channel.standard then _ else _) = _
    rw [if_neg h, ite_lt_eq_max]
    rfl
  · show (if i.channel = Channel.standard then _ else _) =
      (if i.channel = Channel.standard then _ else _) * RATES i.market
    rw [if_neg h, if_neg h]
  · show (if i.channel = Channel.standard then _ else _) = _
    rw [if_neg h,
      if_pos (show i.weightKg ⊔ volWeight i.length i.width i.height < minWeight i.channel from hlt)]
  · simp only [calculate]
    simp [h]

/-- C3 witness: sea channel, market PH, weight below the 10 kg minimum. -/
theorem C3_bulk_channel_witness :
    (calculate ⟨20, 0.1, 10, 10, 5, 30, 8, Channel.sea, Zone.A, TargetMarket.PH⟩).shippingCostCNY =
      max ((calculate ⟨20, 0.1, 10, 10, 5, 30, 8, Channel.sea, Zone.A, TargetMarket.PH⟩).chargeableWeight)
        (minWeight Channel.sea) * pricePerKg TargetMarket.PH Channel.sea ∧
    calculate ⟨20, 0.1, 10, 10, 5, 30, 8, Channel.sea, Zone.B, TargetMarket.PH⟩ =
      calculate ⟨20, 0.1, 10, 10, 5, 30, 8, Channel.sea, Zone.A, TargetMarket.PH⟩ :=
  ⟨(C3_bulk_channel ⟨20, 0.1, 10, 10, 5, 30, 8, Channel.sea, Zone.A, TargetMarket.PH⟩
      (by simp)).1,
   (C3_bulk_channel ⟨20, 0.1, 10, 10, 5, 30, 8, Channel.sea, Zone.A, TargetMarket.PH⟩
      (by simp)).2.2.2 Zone.B⟩

/-- C4: for each competitor entry the comparator computes
`priceReference = localPrice / exchangeRate`,
`feeReference = priceReference * feeFraction`,
`impliedProfit = priceReference - totalCostReference - feeReference` and
`impliedMargin = impliedProfit / priceReference * 100`; and for every
non-empty competitor list `marketStats` returns the unweighted arithmetic
mean of the local prices. -/
theorem C4_market_comparator (rate fee total price : ℚ) (l : List ℚ) (hl : l ≠ []) :
    (calculateMarginAtPrice rate fee total price).1 =
      price / rate - total - price / rate * (fee / 100) ∧
    (calculateMarginAtPrice rate fee total price).2 =
      (price / rate - total - price / rate * (fee / 100)) / (price / rate) * 100 ∧
    marketStats l = some (l.sum / (l.length : ℚ)) := by
  refine ⟨rfl, rfl, ?_⟩
  rw [marketStats, if_neg (by simp [hl]), foldl_add_eq, zero_add]

/-- C4 witness: a two-element competitor list and a concrete price point. -/
theorem C4_market_comparator_witness :
    (calculateMarginAtPrice 5 8 26.6 200).1 =
      200 / 5 - 26.6 - 200 / 5 * (8 / 100) ∧
    marketStats [210, 190] = some (([210, 190] : List ℚ).sum / (([210, 190] : List ℚ).length : ℚ)) :=
  ⟨(C4_market_comparator 5 8 26.6 200 [210, 190] (by simp)).1,
   (C4_market_comparator 5 8 26.6 200 [210, 190] (by simp)).2.2⟩

/-- C10: at competitor local price 0 (exchange rate 5, fee 8 %, total cost
26.6) the comparator's implied margin is JavaScript's non-finite
`(profit / 0) * 100` — modelled as `none` — and that value flows to the
caller: the source returns no defined undefined-margin marker.  The implied
profit at the same input is the finite `-26.6`. -/
theorem C10_zero_price_margin :
    (calculateMarginAtPriceJS 5 8 26.6 0).2 = none ∧
    (calculateMarginAtPriceJS 5 8 26.6 0).1 = some (0 - 26.6 - 0) := by
  constructor <;> norm_num [calculateMarginAtPriceJS, jsDiv]

/-- C6: for every fixed market and zone, the standard-channel shipping cost
is monotonically non-decreasing in the chargeable weight, both in local
currency and in the reference currency (local divided by the positive
exchange rate). -/
theorem C6_standard_monotone (m : TargetMarket) (z : Zone) (w₁ w₂ : ℚ) (h : w₁ ≤ w₂) :
    standardShippingLocal m z w₁ ≤ standardShippingLocal m z w₂ ∧
    standardShippingLocal m z w₁ / RATES m ≤ standardShippingLocal m z w₂ / RATES m := by
  have hu := unitsOf_mono h
  have key : standardShippingLocal m z w₁ ≤ standardShippingLocal m z w₂ := by
    cases m <;> simp only [standardShippingLocal] <;>
      first
        | linarith
        | linarith [posIf_mono (show (unitsOf w₁ - 1) * 900 ≤ (unitsOf w₂ - 1) * 900 by linarith)]
        | linarith [posIf_mono (show (unitsOf w₁ - 1) * 0.15 ≤ (unitsOf w₂ - 1) * 0.15 by linarith)]
        | linarith [posIf_mono (show (unitsOf w₁ - 1) * 1000 ≤ (unitsOf w₂ - 1) * 1000 by linarith)]
  exact ⟨key, (div_le_div_iff_of_pos_right (RATES_pos m)).mpr key⟩

/-- C6 witness: market TH, zone A, weights 0.1 ≤ 0.2. -/
theorem C6_standard_monotone_witness :
    standardShippingLocal TargetMarket.TH Zone.A 0.1 ≤ standardShippingLocal TargetMarket.TH Zone.A 0.2 ∧
    standardShippingLocal TargetMarket.TH Zone.A 0.1 / RATES TargetMarket.TH ≤
      standardShippingLocal TargetMarket.TH Zone.A 0.2 / RATES TargetMarket.TH :=
  C6_standard_monotone TargetMarket.TH Zone.A 0.1 0.2 (by norm_num)

/-- C7: the chargeable-weight rounding `⌈grams / 10⌉ * 10` never decreases
the weight (for non-negative weights, in grams), maps a value already
aligned to the 10 g increment to itself, and is idempotent. -/
theorem C7_rounding (w : ℚ) (_hw : 0 ≤ w) :
    w * 1000 ≤ chargeWeightG w ∧
    (∀ k : ℤ, w * 1000 = 10 * k → chargeWeightG w = w * 1000) ∧
    chargeWeightG (chargeWeightG w / 1000) = chargeWeightG w := by
  refine ⟨?_, fun k hk => ?_, ?_⟩
  · have hceil := Int.le_ceil (w * 1000 / 10)
    unfold chargeWeightG
    linarith
  · unfold chargeWeightG
    have harg : w * 1000 / 10 = (k : ℚ) := by rw [hk]; ring
    rw [harg, Int.ceil_intCast, hk]
    ring
  · unfold chargeWeightG
    have harg : (⌈w * 1000 / 10⌉ * 10 : ℚ) / 1000 * 1000 / 10 = (⌈w * 1000 / 10⌉ : ℚ) := by
      ring
    rw [harg, Int.ceil_intCast]

/-- C7 witness: 0.1 kg is aligned (100 g = 10 · 10 g). -/
theorem C7_rounding_witness :
    (0.1 : ℚ) * 1000 ≤ chargeWeightG 0.1 ∧
    chargeWeightG 0.1 = 0.1 * 1000 ∧
    chargeWeightG (chargeWeightG 0.1 / 1000) = chargeWeightG 0.1 :=
  ⟨(C7_rounding 0.1 (by norm_num)).1,
   (C7_rounding 0.1 (by norm_num)).2.1 10 (by norm_num),
   (C7_rounding 0.1 (by norm_num)).2.2⟩

/-- C8: the concrete scenario — market TH, standard channel, zone A, actual
weight 0.1 kg, dimensions 10×10×5 cm, goods cost 20, margin 30 %, fee 8 %:
volumetric weight `1/12 ≈ 0.0833` kg, chargeable weight 0.1 kg = 100 g =
10 units, local shipping 33, reference shipping 6.6 at exchange rate 5,
total cost 26.6, divisor 0.62, selling price `1330/31 ≈ 42.9`, net profit
`399/31 ≈ 12.87`. -/
theorem C8_example_scenario :
    (calculate ⟨20, 0.1, 10, 10, 5, 30, 8, Channel.standard, Zone.A, TargetMarket.TH⟩).volumetricWeight = 1 / 12 ∧
    |(calculate ⟨20, 0.1, 10, 10, 5, 30, 8, Channel.standard, Zone.A, TargetMarket.TH⟩).volumetricWeight - 0.0833| < 0.0001 ∧
    (calculate ⟨20, 0.1, 10, 10, 5, 30, 8, Channel.standard, Zone.A, TargetMarket.TH⟩).chargeableWeight = 0.1 ∧
    chargeWeightG 0.1 = 100 ∧
    unitsOf 0.1 = 10 ∧
    (calculate ⟨20, 0.1, 10, 10, 5, 30, 8, Channel.standard, Zone.A, TargetMarket.TH⟩).shippingCostLocal = 33 ∧
    RATES TargetMarket.TH = 5 ∧
    (calculate ⟨20, 0.1, 10, 10, 5, 30, 8, Channel.standard, Zone.A, TargetMarket.TH⟩).shippingCostCNY = 6.6 ∧
    (calculate ⟨20, 0.1, 10, 10, 5, 30, 8, Channel.standard, Zone.A, TargetMarket.TH⟩).totalCostCNY = 26.6 ∧
    (1 : ℚ) - 8 / 100 - 30 / 100 = 0.62 ∧
    |(calculate ⟨20, 0.1, 10, 10, 5, 30, 8, Channel.standard, Zone.A, TargetMarket.TH⟩).sellingPriceCNY - 42.9| < 0.01 ∧
    |(calculate ⟨20, 0.1, 10, 10, 5, 30, 8, Channel.standard, Zone.A, TargetMarket.TH⟩).netProfitCNY - 12.87| < 0.001 := by
  have hceil : (⌈(0.1 : ℚ) * 1000 / 10⌉ : ℤ) = 10 := by
    rw [Int.ceil_eq_iff]
    constructor <;> norm_num
  have hmax : max (0.1 : ℚ) (volWeight 10 10 5) = 0.1 := by
    rw [volWeight, max_eq_left (by norm_num)]
  refine ⟨?_, ?_, ?_, ?_, ?_, ?_, ?_, ?_, ?_, ?_, ?_, ?_⟩
  · simp only [calculate]
    norm_num [volWeight]
  · simp only [calculate]
    norm_num [volWeight, abs_lt]
  · simp only [calculate, hmax]
  · simp only [chargeWeightG, hceil]
    norm_num
  · simp only [unitsOf, chargeWeightG, hceil]
    norm_num
  · simp only [calculate, standardShippingLocal, unitsOf, chargeWeightG, RATES, hmax, hceil]
    norm_num
  · norm_num [RATES]
  · simp only [calculate, standardShippingLocal, unitsOf, chargeWeightG, RATES, hmax, hceil]
    norm_num
  · simp only [calculate, standardShippingLocal, unitsOf, chargeWeightG, RATES, hmax, hceil]
    norm_num
  · norm_num
  · simp only [calculate, computeSellingPriceCNY, standardShippingLocal, unitsOf,
      chargeWeightG, RATES, hmax, hceil]
    norm_num [abs_lt]
  · simp only [calculate, computeSellingPriceCNY, standardShippingLocal, unitsOf,
      chargeWeightG, RATES, hmax, hceil]
    norm_num [abs_lt]

/-- C9 (counterexample): at total cost 26.6, margin 30 %, fee 8 %, exchange
rate 5 — the normal branch, divisor 0.62 — the comparator's implied profit
at the recommended local price differs from `netProfit - fee` by the full
fee `106.4/31 ≈ 3.43`, far beyond any rounding tolerance (the displayed
values are rounded to two decimals). -/
theorem C9_comparator_counterexample :
    (1 : ℚ) - 8 / 100 - 30 / 100 > 0.05 ∧
    (calculateMarginAtPrice 5 8 26.6 (computeSellingPriceCNY 26.6 30 8 * 5)).1 -
      (computeSellingPriceCNY 26.6 30 8 * (30 / 100) -
        computeSellingPriceCNY 26.6 30 8 * (8 / 100)) = 106.4 / 31 ∧
    (106.4 : ℚ) / 31 > 1 := by
  refine ⟨by norm_num, ?_, by norm_num⟩
  rw [computeSellingPriceCNY_of_pos (by norm_num)]
  simp only [calculateMarginAtPrice]
  norm_num

/-- C9 (amended): the comparator's implied profit at a competitor price
equal to the recommended selling price (converted to local currency) equals
the Pricing Engine's net profit itself — the fee is already subtracted
inside the implied-profit formula — exactly, whenever the engine took the
normal (`divisor > 0.05`) branch and the unrounded total cost is used. -/
theorem C9_comparator_consistency (total m f rate : ℚ) (hrate : rate ≠ 0)
    (h : 1 - f / 100 - m / 100 > 0.05) :
    (calculateMarginAtPrice rate f total (computeSellingPriceCNY total m f * rate)).1 =
      computeSellingPriceCNY total m f * (m / 100) := by
  have hd : (1 : ℚ) - f / 100 - m / 100 ≠ 0 := by
    intro h0
    rw [h0] at h
    norm_num at h
  rw [computeSellingPriceCNY_of_pos h]
  simp only [calculateMarginAtPrice]
  have hPr : ∀ x : ℚ, x * rate / rate = x := fun x => by
    rw [mul_div_assoc, div_self hrate, mul_one]
  simp only [hPr]
  have key : total / (1 - f / 100 - m / 100) * (1 - f / 100 - m / 100) = total :=
    div_mul_cancel₀ total hd
  linear_combination key

/-- C9 witness: the scenario of C8. -/
theorem C9_comparator_consistency_witness :
    (calculateMarginAtPrice 5 8 26.6 (computeSellingPriceCNY 26.6 30 8 * 5)).1 =
      computeSellingPriceCNY 26.6 30 8 * (30 / 100) :=
  C9_comparator_consistency 26.6 30 8 5 (by norm_num) (by norm_num)

end SiamAI
